import Mathlib

/-!
Verification development for the FactFusion news-aggregation dashboard.

The definitions below are a shallow embedding of the repository code:
  - src/lib/fetchNews.ts      (remote fetcher and its IndexedDB cache gate)
  - src/store/filtersSlice.ts (filter state transitions)
  - src/pages/_app.tsx        (dashboard page: hydration, refresh, filtering)
  - src/pages/news-analytics.tsx (analytics page and admin payout page)

Asynchronous effects are embedded as pure functions from their inputs
(cache contents, connectivity, HTTP responses, fetch outcomes) to their
observable results (displayed state, store writes, thrown errors as Except).
Machine time is an Int of milliseconds since the epoch, as in JS Date.now.
-/

namespace FactFusion

/-! ## Data model (spec section 3, TS interface Article) -/

/-- Raw item as returned by the news provider; optional JSON fields are
Option. Mirrors the fields read by mapArticle in src/lib/fetchNews.ts. -/
structure RawItem where
  title : String
  description : Option String
  url : String
  urlToImage : Option String
  author : Option String
  publishedAt : String
  source : Option String
deriving Repr, DecidableEq

/-- Normalized article record, mirroring the TS Article interface used by
all three pages: author may be null, description and image optional, and a
type tag set by the fetcher mapping. -/
structure Article where
  title : String
  description : Option String
  url : String
  urlToImage : Option String
  author : Option String
  publishedAt : String
  source : Option String
  type : String
deriving Repr, DecidableEq

/-! ## Remote Fetcher (src/lib/fetchNews.ts) -/

/-- Mapping of one raw item in fetchNews (lines 57-66): fields copied
verbatim, type hardcoded to "news". -/
def fetchNewsMapArticle (item : RawItem) : Article :=
  { title := item.title
    description := item.description
    url := item.url
    urlToImage := item.urlToImage
    author := item.author
    publishedAt := item.publishedAt
    source := item.source
    type := "news" }

/-- Mapping of one raw item in fetchNewsAndBlogs (lines 104-113): fields
copied verbatim, type taken from the category parameter. -/
def fetchNABMapArticle (item : RawItem) (ty : String) : Article :=
  { title := item.title
    description := item.description
    url := item.url
    urlToImage := item.urlToImage
    author := item.author
    publishedAt := item.publishedAt
    source := item.source
    type := ty }

/-- Parsed JSON body of a provider response; data.articles may be absent,
in which case the code falls back to an empty list via (data.articles || []). -/
structure NewsBody where
  articles : Option (List RawItem)
deriving Repr, DecidableEq

/-- HTTP response as the fetcher observes it: the ok status flag, and the
body as parsed JSON (none models a body on which res.json() throws). -/
structure HttpResponse where
  ok : Bool
  body : Option NewsBody
deriving Repr, DecidableEq

/-- Errors thrown by the fetcher: the explicit throw on a non-ok status in
fetchNews, and a json parsing failure propagating from res.json(). -/
inductive FetchError where
  | failedToFetchNews
  | jsonError
deriving Repr, DecidableEq

/-- Network phase of fetchNews (lines 51-68): on a non-ok response it
throws before reading the body; otherwise it maps data.articles (or [])
through its mapArticle. -/
def fetchNewsNetwork (res : HttpResponse) : Except FetchError (List Article) :=
  if res.ok then
    match res.body with
    | none => .error .jsonError
    | some data => .ok ((data.articles.getD []).map fetchNewsMapArticle)
  else .error .failedToFetchNews

/-- Network phase of fetchNewsAndBlogs (lines 92-116): it never consults
the ok status of either response; it parses both bodies in order and maps
the technology items with tag "news" and the general items with tag
"blogs". -/
def fetchNewsAndBlogsNetwork (newsRes blogsRes : HttpResponse) :
    Except FetchError (List Article × List Article) :=
  match newsRes.body with
  | none => .error .jsonError
  | some newsData =>
    match blogsRes.body with
    | none => .error .jsonError
    | some blogsData =>
      .ok ((newsData.articles.getD []).map (fun it => fetchNABMapArticle it "news"),
           (blogsData.articles.getD []).map (fun it => fetchNABMapArticle it "blogs"))

/-! ## Cache gate inside the fetcher -/

/-- Cached value under key newsapi_news, written by fetchNews. -/
structure NewsCache where
  articles : List Article
  timestamp : Int
deriving Repr, DecidableEq

/-- Cached value under key newsapi_news_blogs. The news and blogs fields
are Option because the stored record is untyped in the source and the
consumers test each field for truthiness before use. -/
structure CacheNB where
  news : Option (List Article)
  blogs : Option (List Article)
  timestamp : Int
deriving Repr, DecidableEq

/-- Cached value under key admin-payout-articles, written by the admin
payout page. -/
structure CacheAdmin where
  articles : Option (List Article)
  timestamp : Int
deriving Repr, DecidableEq

/-- The one-hour freshness window, 60 * 60 * 1000 milliseconds. -/
def oneHourMs : Int := 60 * 60 * 1000

/-- Outcome of the cache gate at the top of fetchNews. -/
inductive FetchNewsCacheOutcome where
  | cached (articles : List Article)
  | refetch
deriving Repr, DecidableEq

/-- Cache gate of fetchNews (lines 41-49), in a browser context: a present
cache entry is returned only when its age is under one hour; otherwise
control proceeds to the network request. -/
def fetchNewsCacheStep (now : Int) : Option NewsCache → FetchNewsCacheOutcome
  | some c => if now - c.timestamp < oneHourMs then .cached c.articles else .refetch
  | none => .refetch

/-- Outcome of the cache gate at the top of fetchNewsAndBlogs. -/
inductive FetchNABCacheOutcome where
  | cached (news blogs : Option (List Article))
  | refetch
deriving Repr, DecidableEq

/-- Cache gate of fetchNewsAndBlogs (lines 83-91), in a browser context: a
present cache entry is returned only when its age is under one hour
(the same one-hour window as the single-category path); otherwise control
proceeds to the two network requests. The cached return copies the news
and blogs fields without further validation. -/
def fetchNABCacheStep (now : Int) : Option CacheNB → FetchNABCacheOutcome
  | some c => if now - c.timestamp < oneHourMs then .cached c.news c.blogs else .refetch
  | none => .refetch

/-- True when the fetchNewsAndBlogs call reaches the network, that is when
its cache gate does not return a cached batch. -/
def fetchNABNetworkCall (now : Int) (cached : Option CacheNB) : Bool :=
  match fetchNABCacheStep now cached with
  | .cached _ _ => false
  | .refetch => true

/-! ## Filter state (src/store/filtersSlice.ts) -/

/-- State of the filters slice. The type selector is one of "news",
"blogs", "all"; it is kept as a String here as the pages compare it as
text. -/
structure FiltersState where
  type : String
  searchTerm : String
  selectedAuthor : String
  startDate : String
  endDate : String
deriving Repr, DecidableEq

/-- Initial state of the filters slice (lines 11-17). -/
def filtersInitialState : FiltersState :=
  { type := "news"
    searchTerm := ""
    selectedAuthor := "All"
    startDate := ""
    endDate := "" }

/-- Reducer setType (lines 23-29): sets the type and resets author, search
term and both date bounds. -/
def setType (s : FiltersState) (t : String) : FiltersState :=
  { s with
    type := t
    selectedAuthor := "All"
    searchTerm := ""
    startDate := ""
    endDate := "" }

/-- Reducer setSearchTerm (lines 30-32). -/
def setSearchTerm (s : FiltersState) (v : String) : FiltersState :=
  { s with searchTerm := v }

/-- Reducer setSelectedAuthor (lines 33-35). -/
def setSelectedAuthor (s : FiltersState) (v : String) : FiltersState :=
  { s with selectedAuthor := v }

/-- Reducer setStartDate (lines 36-38). -/
def setStartDate (s : FiltersState) (v : String) : FiltersState :=
  { s with startDate := v }

/-- Reducer setEndDate (lines 39-41). -/
def setEndDate (s : FiltersState) (v : String) : FiltersState :=
  { s with endDate := v }

/-- Reducer resetFilters (lines 42-47): resets everything except the type. -/
def resetFilters (s : FiltersState) : FiltersState :=
  { s with
    selectedAuthor := "All"
    searchTerm := ""
    startDate := ""
    endDate := "" }

/-! ## Page orchestrators

Each page runs three independent effects on mount: hydration from the
cache, an opportunistic refresh when online, and an offline fallback.
Each effect is embedded as a pure function from what it reads (the cache
entry under the page key, connectivity, the fetch outcome) to what it
produces (displayed state, an optional store write). -/

/-- Validity test used by the dashboard and analytics pages on the cached
record: cached && cached.news && cached.blogs. An empty list is a truthy
JS array, so emptiness is not checked here. -/
def cacheNBValid : Option CacheNB → Bool
  | some c => c.news.isSome && c.blogs.isSome
  | none => false

/-- Result of the dashboard hydration effect (src/pages/_app.tsx lines
80-101): the displayed news and blogs lists, the offlineArticles snapshot,
and the store write performed in the fallback branch. -/
structure HomeHydrateResult where
  news : List Article
  blogs : List Article
  offlineArticles : Option (List Article × List Article)
  storeWrite : Option (List Article × List Article)
deriving Repr, DecidableEq

/-- Dashboard hydration (src/pages/_app.tsx lines 80-101): a cached record
with both fields present is adopted as displayed data and as the offline
snapshot, with no timestamp check and no write; otherwise the server
rendered lists are adopted and persisted under newsapi_news_blogs. -/
def homeHydrate (cached : Option CacheNB) (ssrNews ssrBlogs : List Article) :
    HomeHydrateResult :=
  match cached with
  | some c =>
    match c.news, c.blogs with
    | some n, some b =>
      { news := n, blogs := b, offlineArticles := some (n, b), storeWrite := none }
    | _, _ =>
      { news := ssrNews, blogs := ssrBlogs, offlineArticles := none
        storeWrite := some (ssrNews, ssrBlogs) }
  | none =>
    { news := ssrNews, blogs := ssrBlogs, offlineArticles := none
      storeWrite := some (ssrNews, ssrBlogs) }

/-- Result of the analytics hydration effect (src/pages/news-analytics.tsx
lines 54-73). -/
structure AnalyticsHydrateResult where
  news : List Article
  blogs : List Article
  storeWrite : Option (List Article × List Article)
deriving Repr, DecidableEq

/-- Analytics hydration (src/pages/news-analytics.tsx lines 54-73): same
branching as the dashboard, without an offline snapshot variable. -/
def analyticsHydrate (cached : Option CacheNB) (ssrNews ssrBlogs : List Article) :
    AnalyticsHydrateResult :=
  match cached with
  | some c =>
    match c.news, c.blogs with
    | some n, some b => { news := n, blogs := b, storeWrite := none }
    | _, _ =>
      { news := ssrNews, blogs := ssrBlogs, storeWrite := some (ssrNews, ssrBlogs) }
  | none =>
    { news := ssrNews, blogs := ssrBlogs, storeWrite := some (ssrNews, ssrBlogs) }

/-- Result of the admin payout hydration effect (AdminPayout component,
lines 397-417 of the admin payout source). -/
structure AdminHydrateResult where
  articles : List Article
  storeWrite : Option (List Article)
deriving Repr, DecidableEq

/-- Admin payout hydration: the cached record is adopted when
cached && Array.isArray(cached.articles) && cached.articles.length > 0;
otherwise the server rendered list is adopted and persisted under
admin-payout-articles. -/
def adminHydrate (cached : Option CacheAdmin) (ssrArticles : List Article) :
    AdminHydrateResult :=
  match cached with
  | some c =>
    match c.articles with
    | some (a :: rest) => { articles := a :: rest, storeWrite := none }
    | _ => { articles := ssrArticles, storeWrite := some ssrArticles }
  | none => { articles := ssrArticles, storeWrite := some ssrArticles }

/-- Whether the dashboard refresh effect (src/pages/_app.tsx lines
104-124) invokes fetchNewsAndBlogs: only when online and the cached record
under newsapi_news_blogs is absent or missing a field. -/
def homeRefreshInvokesFetcher (online : Bool) (cached : Option CacheNB) : Bool :=
  online && !cacheNBValid cached

/-- Whether the analytics refresh effect (src/pages/news-analytics.tsx
lines 76-95) invokes fetchNewsAndBlogs: the same condition as the
dashboard. -/
def analyticsRefreshInvokesFetcher (online : Bool) (cached : Option CacheNB) : Bool :=
  online && !cacheNBValid cached

/-- Whether the admin payout refresh effect (lines 420-433 of the admin
payout source) invokes fetchNewsAndBlogs: whenever online, with no look at
any cached record. -/
def adminRefreshInvokesFetcher (online : Bool) : Bool :=
  online

/-- Whether the admin payout refresh effect causes network requests. The
effect ignores the cached record under its own key admin-payout-articles
(the adminCache argument is unused, mirroring the source, which reads no
cache in this effect); when online it calls fetchNewsAndBlogs, which
reaches the network unless its own cache key newsapi_news_blogs holds an
entry fresher than one hour. -/
def adminRefreshNetworkCall (online : Bool) (_adminCache : Option CacheAdmin)
    (now : Int) (fetcherCache : Option CacheNB) : Bool :=
  online && fetchNABNetworkCall now fetcherCache

/-- Outcome of an awaited fetchNewsAndBlogs call: the resolved pair, or a
rejection (network failure or thrown error). -/
inductive FetchOutcome where
  | success (news blogs : List Article)
  | failure
deriving Repr, DecidableEq

/-- Component state of the dashboard page that the refresh effect can
touch: the displayed lists, the offline snapshot, and the apiError flag. -/
structure HomeState where
  news : List Article
  blogs : List Article
  offlineArticles : Option (List Article × List Article)
  apiError : Bool
deriving Repr, DecidableEq

/-- Dashboard refresh continuation (src/pages/_app.tsx lines 109-120):
on success the fresh lists are adopted, snapshotted and persisted; on
failure the catch handler runs setApiError(true) and nothing else, so the
prior displayed state is kept, nothing is written, and no error escapes
to the renderer. -/
def homeRefreshApply (s : HomeState) :
    FetchOutcome → HomeState × Option (List Article × List Article)
  | .success n b =>
    ({ s with news := n, blogs := b, offlineArticles := some (n, b) }, some (n, b))
  | .failure => ({ s with apiError := true }, none)

/-- Component state of the analytics page touched by its refresh effect:
the two displayed lists. The page declares no error flag of any kind. -/
structure AnalyticsState where
  news : List Article
  blogs : List Article
deriving Repr, DecidableEq

/-- Analytics refresh continuation (src/pages/news-analytics.tsx lines
81-91): on success the fresh lists are adopted and persisted; the catch
handler is empty, so a failure changes nothing and raises nothing. -/
def analyticsRefreshApply (s : AnalyticsState) :
    FetchOutcome → AnalyticsState × Option (List Article × List Article)
  | .success n b => ({ news := n, blogs := b }, some (n, b))
  | .failure => (s, none)

/-- Component state of the admin payout page touched by its refresh
effect: the displayed article list. The page declares no error flag. -/
structure AdminState where
  articles : List Article
deriving Repr, DecidableEq

/-- Admin payout refresh continuation (lines 422-431 of the admin payout
source): on success news and blogs are concatenated, adopted and
persisted; the catch handler is empty, so a failure changes nothing and
raises nothing. -/
def adminRefreshApply (s : AdminState) :
    FetchOutcome → AdminState × Option (List Article)
  | .success n b => ({ articles := n ++ b }, some (n ++ b))
  | .failure => (s, none)

/-- The API error indicator the dashboard page renders: its apiError
state. -/
def homeApiErrorFlag (s : HomeState) : Bool := s.apiError

/-- The API error indicator the analytics page renders: the page has no
error state and renders no error view, so the flag reads constantly
false. -/
def analyticsApiErrorFlag (_s : AnalyticsState) : Bool := false

/-- The API error indicator the admin payout page renders: the page has
no error state and renders no error view, so the flag reads constantly
false. -/
def adminApiErrorFlag (_s : AdminState) : Bool := false

/-! ## String and date primitives

The dashboard filter uses the JS primitives String.prototype.toLowerCase,
String.prototype.includes and Date parsing. They are modelled here over
the character lists of the strings so that every definition reduces in
the kernel. -/

/-- Whether the first character list is an initial segment of the second. -/
def startsWithChars : List Char → List Char → Bool
  | [], _ => true
  | _ :: _, [] => false
  | a :: as, b :: bs => a == b && startsWithChars as bs

/-- Whether the first character list occurs contiguously inside the
second, as String.prototype.includes. -/
def includesChars (sub : List Char) : List Char → Bool
  | [] => sub.isEmpty
  | c :: rest => startsWithChars sub (c :: rest) || includesChars sub rest

/-- JS s.includes(sub). -/
def jsIncludes (s sub : String) : Bool := includesChars sub.data s.data

/-- JS s.toLowerCase() on the ASCII range. -/
def jsToLower (s : String) : String := ⟨s.data.map Char.toLower⟩

/-- Splits a character list at every occurrence of the separator; always
returns at least one piece. -/
def splitOnChar (sep : Char) : List Char → List (List Char)
  | [] => [[]]
  | c :: rest =>
    let r := splitOnChar sep rest
    if c == sep then [] :: r
    else
      match r with
      | h :: t => (c :: h) :: t
      | [] => [[c]]

/-- Numeric value of a digit list, most significant first. -/
def digitsVal (cs : List Char) : Nat :=
  cs.foldl (fun n c => n * 10 + (c.toNat - 48)) 0

/-- Parses a nonempty all-digit character list. -/
def parseNatDigits (cs : List Char) : Option Nat :=
  if !cs.isEmpty && cs.all Char.isDigit then some (digitsVal cs) else none

/-- Days from 1970-01-01 of a proleptic Gregorian civil date, the standard
era-based calculation used for Unix timestamps. -/
def daysFromCivil (y m d : Int) : Int :=
  let yy := if m ≤ 2 then y - 1 else y
  let era := (if 0 ≤ yy then yy else yy - 399) / 400
  let yoe := yy - era * 400
  let mp := (m + 9) % 12
  let doy := (153 * mp + 2) / 5 + d - 1
  let doe := yoe * 365 + yoe / 4 - yoe / 100 + doy
  era * 146097 + doe - 719468

/-- Parses a YYYY-MM-DD character list to days since the epoch. -/
def parseDateChars (cs : List Char) : Option Int :=
  match splitOnChar '-' cs with
  | [y, m, d] =>
    match parseNatDigits y, parseNatDigits m, parseNatDigits d with
    | some yn, some mn, some dn =>
      if 1 ≤ mn && mn ≤ 12 && 1 ≤ dn && dn ≤ 31 then
        some (daysFromCivil yn mn dn)
      else none
    | _, _, _ => none
  | _ => none

/-- Parses an HH:MM:SSZ character list to milliseconds past midnight UTC. -/
def parseTimeChars (cs : List Char) : Option Int :=
  match cs.reverse with
  | 'Z' :: revRest =>
    match splitOnChar ':' revRest.reverse with
    | [h, m, s] =>
      match parseNatDigits h, parseNatDigits m, parseNatDigits s with
      | some hn, some mn, some sn =>
        if hn ≤ 23 && mn ≤ 59 && sn ≤ 59 then
          some (((hn * 60 + mn) * 60 + sn) * 1000)
        else none
      | _, _, _ => none
    | _ => none
  | _ => none

/-- JS new Date(s).getTime() on the two ISO-8601 shapes the repository
produces: a date-only string YYYY-MM-DD (the date inputs) and a UTC
date-time YYYY-MM-DDTHH:MM:SSZ (the publishedAt field of the provider).
Both are interpreted as UTC, as the ECMAScript date-time string format
prescribes; none models an invalid date, whose comparisons are all
false. -/
def jsDateParse (s : String) : Option Int :=
  match splitOnChar 'T' s.data with
  | [d] => (parseDateChars d).map (fun days => days * 86400000)
  | [d, t] =>
    match parseDateChars d, parseTimeChars t with
    | some days, some ms => some (days * 86400000 + ms)
    | _, _ => none
  | _ => none

/-! ## Dashboard filtering (src/pages/_app.tsx lines 176-194) -/

/-- Search clause: the lowercased title contains the lowercased term, or
the article has a description and its lowercase form contains the term.
The optional chaining on description makes a missing description count as
no match. -/
def matchesSearch (f : FiltersState) (a : Article) : Bool :=
  jsIncludes (jsToLower a.title) (jsToLower f.searchTerm) ||
    (match a.description with
     | some d => jsIncludes (jsToLower d) (jsToLower f.searchTerm)
     | none => false)

/-- JS article.author || "Unknown": the author field with every falsy
value replaced by Unknown. For a string-or-null field the falsy values
are null and the empty string, so both normalize to Unknown. -/
def jsAuthorOrUnknown (author : Option String) : String :=
  match author with
  | some a => if a = "" then "Unknown" else a
  | none => "Unknown"

/-- Author clause: the sentinel All admits everything, otherwise the
author, with null and the empty string normalized to Unknown, must equal
the selection. -/
def matchesAuthor (f : FiltersState) (a : Article) : Bool :=
  f.selectedAuthor == "All" || jsAuthorOrUnknown a.author == f.selectedAuthor

/-- Start-bound clause: an empty startDate is falsy and imposes nothing;
otherwise the parsed publication date must be at least the parsed bound,
with any invalid date failing the comparison. -/
def matchesStart (f : FiltersState) (a : Article) : Bool :=
  if f.startDate == "" then true
  else
    match jsDateParse a.publishedAt, jsDateParse f.startDate with
    | some ad, some sd => decide (sd ≤ ad)
    | _, _ => false

/-- End-bound clause: symmetric to the start bound. -/
def matchesEnd (f : FiltersState) (a : Article) : Bool :=
  if f.endDate == "" then true
  else
    match jsDateParse a.publishedAt, jsDateParse f.endDate with
    | some ad, some ed => decide (ad ≤ ed)
    | _, _ => false

/-- The dashboard filtering predicate: the conjunction of the four
clauses, as the filter callback returns
matchesSearch && matchesAuthor && matchesStart && matchesEnd. -/
def filterPred (f : FiltersState) (a : Article) : Bool :=
  matchesSearch f a && matchesAuthor f a && matchesStart f a && matchesEnd f a

/-- The filtered list the dashboard renders. -/
def filtered (f : FiltersState) (arts : List Article) : List Article :=
  arts.filter (filterPred f)

/-! ## Admin payout grouping and rates (news-analytics source, AdminPayout) -/

/-- One row of the grouped map: author, type and article count. -/
structure GroupRow where
  author : String
  type : String
  count : Nat
deriving Repr, DecidableEq

/-- The composite key the payout page builds for an article: the author
with falsy values normalized to Unknown, the separator, the type. -/
def articleKey (a : Article) : String :=
  jsAuthorOrUnknown a.author ++ "|||" ++ a.type

/-- One iteration of the grouping forEach (lines 484-489 of the admin
payout source): a fresh key starts a row at count 1 (the source writes
count 0 then immediately increments), an existing key increments its
row. -/
def groupedStep (m : String → Option GroupRow) (a : Article) : String → Option GroupRow :=
  let author := jsAuthorOrUnknown a.author
  let key := author ++ "|||" ++ a.type
  fun k =>
    if k = key then
      match m key with
      | some r => some { r with count := r.count + 1 }
      | none => some { author := author, type := a.type, count := 1 }
    else m k

/-- The grouped map of the payout page: the articles folded through the
grouping step, starting from the empty object. -/
def grouped (arts : List Article) : String → Option GroupRow :=
  arts.foldl groupedStep (fun _ => none)

/-- Count stored under a key of the grouped map, zero when the key is
absent. -/
def groupedCountAt (m : String → Option GroupRow) (k : String) : Nat :=
  match m k with
  | some r => r.count
  | none => 0

/-- Rate applied to a key: the entry of the payoutRates map when present,
else the default 2 (payoutRates[key] ?? 2). Rates are JS numbers, modelled
as rationals. -/
def payoutRate (rates : List (String × Rat)) (key : String) : Rat :=
  match rates.lookup key with
  | some r => r
  | none => 2

/-- Total payout of one grouped row: count times the rate of its key, as
computed in the table body and in each export. -/
def payoutTotal (rates : List (String × Rat)) (row : GroupRow) : Rat :=
  (row.count : Rat) * payoutRate rates (row.author ++ "|||" ++ row.type)

/-- Syntactic outcome of JS Number(value): not a number, or a sign with
the digit lists of the integer and fractional parts. -/
inductive JsNumShape where
  | nan
  | num (neg : Bool) (intPart fracPart : List Char)
deriving Repr, DecidableEq

/-- Syntactic phase of JS Number(value) on the inputs a rate field
produces: whitespace is trimmed, the empty string stands for 0, and an
optional sign is followed by a decimal numeral with an optional
fractional part; anything else is NaN. -/
def jsNumberShape (s : String) : JsNumShape :=
  let t := (s.data.dropWhile Char.isWhitespace).reverse.dropWhile Char.isWhitespace |>.reverse
  if t.isEmpty then .num false [] []
  else
    let signRest : Bool × List Char :=
      match t with
      | '-' :: cs => (true, cs)
      | '+' :: cs => (false, cs)
      | cs => (false, cs)
    let intPart := signRest.2.takeWhile Char.isDigit
    match signRest.2.dropWhile Char.isDigit with
    | [] => if intPart.isEmpty then .nan else .num signRest.1 intPart []
    | '.' :: frac =>
      if frac.all Char.isDigit && !(intPart.isEmpty && frac.isEmpty) then
        .num signRest.1 intPart frac
      else .nan
    | _ => .nan

/-- Numeric value of a parsed shape: the signed sum of the integer part
and the fractional part scaled by its length. -/
def shapeVal : JsNumShape → Option Rat
  | .nan => none
  | .num neg ip fp =>
    some ((if neg then (-1 : Rat) else 1) *
      ((digitsVal ip : Rat) + (digitsVal fp : Rat) / ((10 : Rat) ^ fp.length)))

/-- JS Number(value), modelled as the numeric value of the parsed shape;
none models NaN. -/
def jsNumber (s : String) : Option Rat :=
  shapeVal (jsNumberShape s)

/-- handleRateChange (lines 498-504 of the admin payout source): the input
string is converted with Number; the rates map is updated at the
author-type key only when the result is not NaN and at least 0, and left
unchanged otherwise. The map is an association list read through its
first matching entry, as the object spread overwrite behaves. -/
def handleRateChange (rates : List (String × Rat)) (author ty value : String) :
    List (String × Rat) :=
  let key := author ++ "|||" ++ ty
  match jsNumber value with
  | some num => if 0 ≤ num then (key, num) :: rates else rates
  | none => rates

/-! ## Concrete inputs used by the example parts of the claims -/

/-- The article of the filtering example in the spec. -/
def exArticle : Article :=
  { title := "Fed raises rates", description := none, url := "u", urlToImage := none,
    author := some "Jane", publishedAt := "2024-03-01T00:00:00Z", source := none, type := "news" }

/-- Filters of the filtering example: search fed, author Jane, bounds
2024-02-01 to 2024-04-01. -/
def exFiltersJane : FiltersState :=
  { type := "news", searchTerm := "fed", selectedAuthor := "Jane",
    startDate := "2024-02-01", endDate := "2024-04-01" }

/-- The same filters with the author selection changed to John. -/
def exFiltersJohn : FiltersState :=
  { exFiltersJane with selectedAuthor := "John" }

/-- First Jane news article of the grouping example. -/
def exJaneNewsA : Article := { exArticle with title := "n1" }

/-- Second Jane news article of the grouping example. -/
def exJaneNewsB : Article := { exArticle with title := "n2" }

/-- The Jane blogs article of the grouping example. -/
def exJaneBlogs : Article := { exArticle with title := "b1", type := "blogs" }

/-- The article list of the grouping example: two Jane news articles and
one Jane blogs article. -/
def exGroupingArticles : List Article := [exJaneNewsA, exJaneNewsB, exJaneBlogs]

/-! ## Theorems -/

/-- C1 counterexample: in fetchNewsAndBlogs a present cached batch whose
age is exactly one hour is not returned; the gate consults the timestamp
and proceeds to the network, refuting that the dual-category path returns
a present cached batch without consulting its timestamp. -/
theorem fetchNewsAndBlogs_stale_cache_refetches :
    fetchNABCacheStep oneHourMs
      (some { news := some [exArticle], blogs := some [exArticle], timestamp := 0 }) =
      .refetch := by
  decide

/-- C1 amended: both fetch paths enforce the one-hour freshness window in
the same way: a present cached batch is returned exactly when its age is
under one hour, and a refetch happens otherwise (in particular whenever
the batch is one hour old or older) or when no batch is cached. -/
theorem freshness_window_enforced_in_both_paths :
    (∀ (now : Int) (c : NewsCache),
      fetchNewsCacheStep now (some c) =
        if now - c.timestamp < oneHourMs then .cached c.articles else .refetch)
  ∧ (∀ now : Int, fetchNewsCacheStep now none = .refetch)
  ∧ (∀ (now : Int) (c : CacheNB),
      fetchNABCacheStep now (some c) =
        if now - c.timestamp < oneHourMs then .cached c.news c.blogs else .refetch)
  ∧ (∀ now : Int, fetchNABCacheStep now none = .refetch)
  ∧ (∀ (now : Int) (c : CacheNB), oneHourMs ≤ now - c.timestamp →
      fetchNABCacheStep now (some c) = .refetch) := by
  refine ⟨fun now c => rfl, fun now => rfl, fun now c => rfl, fun now => rfl, ?_⟩
  intro now c h
  simp only [fetchNABCacheStep, if_neg (not_lt.mpr h)]

/-- C2 counterexample: fetchNewsAndBlogs given two non-success responses
whose bodies still parse as JSON does not fail: it resolves successfully
with the empty batches, refuting that every fetcher call fails with a
FetchFailure on a non-success response. -/
theorem fetchNewsAndBlogs_ignores_http_status :
    fetchNewsAndBlogsNetwork { ok := false, body := some { articles := none } }
      { ok := false, body := some { articles := none } } = .ok ([], []) := rfl

/-- C2 amended: only the single-category fetchNews fails with its
FetchFailure error on a non-success response, the error propagating to
the caller with no retry; the dual-category fetchNewsAndBlogs never
consults the response status and resolves with the mapped batches
whenever both bodies parse as JSON. -/
theorem non_success_response_handling :
    (∀ res : HttpResponse, res.ok = false →
      fetchNewsNetwork res = .error .failedToFetchNews)
  ∧ (∀ (nres bres : HttpResponse) (nd bd : NewsBody),
      nres.body = some nd → bres.body = some bd →
      fetchNewsAndBlogsNetwork nres bres =
        .ok ((nd.articles.getD []).map (fun it => fetchNABMapArticle it "news"),
             (bd.articles.getD []).map (fun it => fetchNABMapArticle it "blogs"))) := by
  constructor
  · intro res h
    simp [fetchNewsNetwork, h]
  · intro nres bres nd bd hn hb
    simp [fetchNewsAndBlogsNetwork, hn, hb]

/-- C6: setType yields a state with the given type and every sub-filter
reset to its default, whatever the prior state was. -/
theorem setType_resets_subfilters (s : FiltersState) (t : String) :
    setType s t =
      { type := t, searchTerm := "", selectedAuthor := "All",
        startDate := "", endDate := "" } := rfl

/-- C7: every article produced by either fetcher mapping carries type
"news" or "blogs", and the type is never the empty string: the
single-category path tags everything "news"; the dual-category path tags
its first batch "news" and its second "blogs". -/
theorem mapped_article_type_news_or_blogs :
    (∀ (res : HttpResponse) (arts : List Article),
      fetchNewsNetwork res = .ok arts →
      ∀ a ∈ arts, a.type = "news" ∧ a.type ≠ "")
  ∧ (∀ (nres bres : HttpResponse) (ns bs : List Article),
      fetchNewsAndBlogsNetwork nres bres = .ok (ns, bs) →
      (∀ a ∈ ns, a.type = "news" ∧ a.type ≠ "") ∧
      (∀ a ∈ bs, a.type = "blogs" ∧ a.type ≠ "")) := by
  constructor
  · rintro ⟨ok, body⟩ arts h a ha
    cases ok with
    | false => simp [fetchNewsNetwork] at h
    | true =>
      cases body with
      | none => simp [fetchNewsNetwork] at h
      | some data =>
        simp [fetchNewsNetwork] at h
        subst h
        rcases List.mem_map.mp ha with ⟨it, _, rfl⟩
        exact ⟨rfl, show ("news" : String) ≠ "" by decide⟩
  · rintro ⟨nok, nbody⟩ ⟨bok, bbody⟩ ns bs h
    cases nbody with
    | none => simp [fetchNewsAndBlogsNetwork] at h
    | some nd =>
      cases bbody with
      | none => simp [fetchNewsAndBlogsNetwork] at h
      | some bd =>
        simp [fetchNewsAndBlogsNetwork] at h
        obtain ⟨hns, hbs⟩ := h
        constructor
        · intro a ha
          rw [← hns] at ha
          rcases List.mem_map.mp ha with ⟨it, _, rfl⟩
          exact ⟨rfl, show ("news" : String) ≠ "" by decide⟩
        · intro a ha
          rw [← hbs] at ha
          rcases List.mem_map.mp ha with ⟨it, _, rfl⟩
          exact ⟨rfl, show ("blogs" : String) ≠ "" by decide⟩

/-- C3: on every page, hydration in a browser adopts a valid cached batch
as the displayed data with no look at its timestamp and no write; when the
cached batch is absent or invalid, the server-rendered batch is adopted
and immediately persisted under the page key. The timestamp argument is
universally quantified, so adoption is independent of age. -/
theorem hydration_adopts_valid_cache_else_ssr :
    (∀ (n b : List Article) (ts : Int) (sn sb : List Article),
      homeHydrate (some { news := some n, blogs := some b, timestamp := ts }) sn sb =
        { news := n, blogs := b, offlineArticles := some (n, b), storeWrite := none })
  ∧ (∀ sn sb : List Article,
      homeHydrate none sn sb =
        { news := sn, blogs := sb, offlineArticles := none, storeWrite := some (sn, sb) })
  ∧ (∀ (c : CacheNB), c.news = none ∨ c.blogs = none → ∀ sn sb : List Article,
      homeHydrate (some c) sn sb =
        { news := sn, blogs := sb, offlineArticles := none, storeWrite := some (sn, sb) })
  ∧ (∀ (n b : List Article) (ts : Int) (sn sb : List Article),
      analyticsHydrate (some { news := some n, blogs := some b, timestamp := ts }) sn sb =
        { news := n, blogs := b, storeWrite := none })
  ∧ (∀ sn sb : List Article,
      analyticsHydrate none sn sb =
        { news := sn, blogs := sb, storeWrite := some (sn, sb) })
  ∧ (∀ (c : CacheNB), c.news = none ∨ c.blogs = none → ∀ sn sb : List Article,
      analyticsHydrate (some c) sn sb =
        { news := sn, blogs := sb, storeWrite := some (sn, sb) })
  ∧ (∀ (a : Article) (rest ssr : List Article) (ts : Int),
      adminHydrate (some { articles := some (a :: rest), timestamp := ts }) ssr =
        { articles := a :: rest, storeWrite := none })
  ∧ (∀ ssr : List Article,
      adminHydrate none ssr = { articles := ssr, storeWrite := some ssr })
  ∧ (∀ (ts : Int) (ssr : List Article),
      adminHydrate (some { articles := none, timestamp := ts }) ssr =
        { articles := ssr, storeWrite := some ssr })
  ∧ (∀ (ts : Int) (ssr : List Article),
      adminHydrate (some { articles := some [], timestamp := ts }) ssr =
        { articles := ssr, storeWrite := some ssr }) := by
  refine ⟨fun n b ts sn sb => rfl, fun sn sb => rfl, ?_,
          fun n b ts sn sb => rfl, fun sn sb => rfl, ?_,
          fun a rest ssr ts => rfl, fun ssr => rfl,
          fun ts ssr => rfl, fun ts ssr => rfl⟩
  · rintro ⟨cn, cb, ts⟩ (h | h) sn sb <;> simp only at h <;> subst h
    · rfl
    · cases cn <;> rfl
  · rintro ⟨cn, cb, ts⟩ (h | h) sn sb <;> simp only at h <;> subst h
    · rfl
    · cases cn <;> rfl

/-- C4 counterexample: the admin payout page holds a present, valid cached
batch under its key and the browser is online, yet its refresh effect
calls the fetcher, which reaches the network because the cache under the
fetcher key is absent; this refutes that every page makes no network call
when its cached batch is present. -/
theorem adminRefresh_networks_despite_present_cache :
    adminRefreshNetworkCall true
      (some { articles := some [exArticle], timestamp := 0 }) (2 * oneHourMs) none = true := by
  decide

/-- C4 amended: the dashboard and analytics orchestrators invoke no fetch
when a valid cached batch is present, whatever the connectivity and the
age of the batch; the admin payout orchestrator instead invokes the
dual-category fetcher whenever online, consulting no cache of its own, so
a network call happens unless the fetcher key holds an entry fresher than
one hour. -/
theorem cached_batch_skips_fetch_on_two_pages :
    (∀ (online : Bool) (n b : List Article) (ts : Int),
      homeRefreshInvokesFetcher online
        (some { news := some n, blogs := some b, timestamp := ts }) = false)
  ∧ (∀ (online : Bool) (n b : List Article) (ts : Int),
      analyticsRefreshInvokesFetcher online
        (some { news := some n, blogs := some b, timestamp := ts }) = false)
  ∧ (∀ online : Bool, adminRefreshInvokesFetcher online = online)
  ∧ (∀ (online : Bool) (ac : Option CacheAdmin) (now : Int) (fc : Option CacheNB),
      adminRefreshNetworkCall online ac now fc = (online && fetchNABNetworkCall now fc))
  ∧ (∀ (now : Int) (c : CacheNB),
      fetchNABNetworkCall now (some c) = decide (oneHourMs ≤ now - c.timestamp))
  ∧ (∀ now : Int, fetchNABNetworkCall now none = true) := by
  refine ⟨?_, ?_, fun online => rfl, fun online ac now fc => rfl, ?_, fun now => rfl⟩
  · intro online n b ts
    simp [homeRefreshInvokesFetcher, cacheNBValid]
  · intro online n b ts
    simp [analyticsRefreshInvokesFetcher, cacheNBValid]
  · intro now c
    by_cases h : now - c.timestamp < oneHourMs
    · simp [fetchNABNetworkCall, fetchNABCacheStep, h, not_le, not_lt]
    · simp [fetchNABNetworkCall, fetchNABCacheStep, h, not_le, not_lt]
      omega

/-- C5 counterexample: on the analytics page a refresh failure leaves the
component state exactly as it was and the page reads no API-error
indicator afterwards, refuting that every page raises the boolean
API-error flag on a refresh failure. -/
theorem analytics_refresh_failure_raises_no_flag :
    analyticsRefreshApply { news := [exArticle], blogs := [] } .failure =
      ({ news := [exArticle], blogs := [] }, none)
    ∧ analyticsApiErrorFlag
        (analyticsRefreshApply { news := [exArticle], blogs := [] } .failure).1 = false :=
  ⟨rfl, rfl⟩

/-- C5 amended: on every page a fetch failure during the opportunistic
refresh is caught locally and leaves the prior displayed data unchanged
with no store write and nothing thrown to the renderer; but only the
dashboard raises its apiError flag — the analytics and admin payout
handlers change nothing at all, and those pages have no API-error flag. -/
theorem refresh_failure_flag_only_on_dashboard :
    (∀ s : HomeState,
      homeRefreshApply s .failure = ({ s with apiError := true }, none)
      ∧ (homeRefreshApply s .failure).1.news = s.news
      ∧ (homeRefreshApply s .failure).1.blogs = s.blogs
      ∧ (homeRefreshApply s .failure).1.offlineArticles = s.offlineArticles
      ∧ homeApiErrorFlag (homeRefreshApply s .failure).1 = true)
  ∧ (∀ s : AnalyticsState, analyticsRefreshApply s .failure = (s, none))
  ∧ (∀ s : AdminState, adminRefreshApply s .failure = (s, none)) :=
  ⟨fun _ => ⟨rfl, rfl, rfl, rfl, rfl⟩, fun _ => rfl, fun _ => rfl⟩

/-- Helper: the search clause holds exactly when the lowercased title or
a present lowercased description contains the lowercased term. -/
theorem matchesSearch_iff (f : FiltersState) (a : Article) :
    matchesSearch f a = true ↔
      (jsIncludes (jsToLower a.title) (jsToLower f.searchTerm) = true ∨
        ∃ d, a.description = some d ∧
          jsIncludes (jsToLower d) (jsToLower f.searchTerm) = true) := by
  cases hd : a.description <;> simp [matchesSearch, hd]

/-- Helper: the author clause holds exactly when All is selected or the
author, with null normalized to Unknown, equals the selection. -/
theorem matchesAuthor_iff (f : FiltersState) (a : Article) :
    matchesAuthor f a = true ↔
      (f.selectedAuthor = "All" ∨ jsAuthorOrUnknown a.author = f.selectedAuthor) := by
  simp [matchesAuthor]

/-- Helper: the start-bound clause holds exactly when no start date is
set, or both dates parse and the publication date is at least the bound. -/
theorem matchesStart_iff (f : FiltersState) (a : Article) :
    matchesStart f a = true ↔
      (f.startDate = "" ∨ ∃ ad sd, jsDateParse a.publishedAt = some ad ∧
        jsDateParse f.startDate = some sd ∧ sd ≤ ad) := by
  by_cases h : f.startDate = ""
  · simp [matchesStart, h]
  · rcases hs : jsDateParse a.publishedAt with _ | ad <;>
      rcases ht : jsDateParse f.startDate with _ | sd <;>
      simp [matchesStart, h, hs, ht]

/-- Helper: the end-bound clause, symmetric to the start bound. -/
theorem matchesEnd_iff (f : FiltersState) (a : Article) :
    matchesEnd f a = true ↔
      (f.endDate = "" ∨ ∃ ad ed, jsDateParse a.publishedAt = some ad ∧
        jsDateParse f.endDate = some ed ∧ ad ≤ ed) := by
  by_cases h : f.endDate = ""
  · simp [matchesEnd, h]
  · rcases hs : jsDateParse a.publishedAt with _ | ad <;>
      rcases ht : jsDateParse f.endDate with _ | ed <;>
      simp [matchesEnd, h, hs, ht]

/-- C8: the dashboard filtering predicate admits an article exactly when
the title or description case-insensitively contains the search term, the
author (null or empty normalized to Unknown, as the JS truthiness default
does) equals the selection or All is selected, and the publication date
lies within the inclusive bounds where set; on the concrete example the
article passes with Jane selected and is excluded with John selected, and
an empty-string author passes under the selection Unknown. -/
theorem filterPred_characterization :
    (∀ (f : FiltersState) (a : Article),
      filterPred f a = true ↔
        ((jsIncludes (jsToLower a.title) (jsToLower f.searchTerm) = true ∨
            ∃ d, a.description = some d ∧
              jsIncludes (jsToLower d) (jsToLower f.searchTerm) = true) ∧
         (f.selectedAuthor = "All" ∨ jsAuthorOrUnknown a.author = f.selectedAuthor) ∧
         (f.startDate = "" ∨ ∃ ad sd, jsDateParse a.publishedAt = some ad ∧
            jsDateParse f.startDate = some sd ∧ sd ≤ ad) ∧
         (f.endDate = "" ∨ ∃ ad ed, jsDateParse a.publishedAt = some ad ∧
            jsDateParse f.endDate = some ed ∧ ad ≤ ed)))
  ∧ filterPred exFiltersJane exArticle = true
  ∧ filterPred exFiltersJohn exArticle = false
  ∧ filtered exFiltersJane [exArticle] = [exArticle]
  ∧ filtered exFiltersJohn [exArticle] = []
  ∧ filterPred { exFiltersJane with selectedAuthor := "Unknown" }
      { exArticle with author := some "" } = true := by
  refine ⟨fun f a => ?_, by decide, by decide, by decide, by decide, by decide⟩
  simp only [filterPred, Bool.and_eq_true]
  rw [matchesSearch_iff, matchesAuthor_iff, matchesStart_iff, matchesEnd_iff]
  tauto

/-- Helper: one grouping step raises the count under the key of the
processed article by one and keeps every other key unchanged. -/
theorem groupedCountAt_step (m : String → Option GroupRow) (a : Article) (k : String) :
    groupedCountAt (groupedStep m a) k =
      groupedCountAt m k + (if articleKey a = k then 1 else 0) := by
  simp only [groupedStep, groupedCountAt, articleKey]
  by_cases h : k = jsAuthorOrUnknown a.author ++ "|||" ++ a.type
  · subst h
    cases hm : m (jsAuthorOrUnknown a.author ++ "|||" ++ a.type) <;> simp [hm]
  · rw [if_neg h, if_neg (fun hh => h hh.symm)]
    exact (Nat.add_zero _).symm

/-- Helper: folding the grouping step over a list adds, under every key,
the number of articles whose key it is. -/
theorem groupedCountAt_foldl (arts : List Article) (m : String → Option GroupRow)
    (k : String) :
    groupedCountAt (arts.foldl groupedStep m) k =
      groupedCountAt m k + arts.countP (fun a => articleKey a == k) := by
  induction arts generalizing m with
  | nil => simp
  | cons a rest ih =>
    rw [List.foldl_cons, ih, groupedCountAt_step, List.countP_cons]
    by_cases h : articleKey a = k
    · simp [h]
      omega
    · simp [h]

/-- C9: the grouped map counts, under every author-type key, exactly the
articles bearing that key, the author component normalizing null and the
empty string to Unknown as the JS truthiness default does; the payout
rate of a key defaults to 2 when the rates map has no entry for it, and
the total of a row is its count times its rate; on the concrete example
the two Jane news articles and one Jane blogs article give counts 2 and
1, an empty-string author counts under the Unknown key, and the Jane
news total at rate 3 is 6. -/
theorem grouping_by_author_type_and_payout :
    (∀ (arts : List Article) (k : String),
      groupedCountAt (grouped arts) k = arts.countP (fun a => articleKey a == k))
  ∧ (∀ k : String, payoutRate [] k = 2)
  ∧ (∀ (rates : List (String × Rat)) (row : GroupRow),
      payoutTotal rates row =
        (row.count : Rat) * payoutRate rates (row.author ++ "|||" ++ row.type))
  ∧ groupedCountAt (grouped exGroupingArticles) "Jane|||news" = 2
  ∧ groupedCountAt (grouped exGroupingArticles) "Jane|||blogs" = 1
  ∧ groupedCountAt (grouped [{ exArticle with author := some "" }]) "Unknown|||news" = 1
  ∧ payoutTotal [("Jane|||news", 3)] { author := "Jane", type := "news", count := 2 } = 6 := by
  refine ⟨fun arts k => ?_, fun k => rfl, fun rates row => rfl, by decide, by decide,
    by decide, ?_⟩
  · have h := groupedCountAt_foldl arts (fun _ => none) k
    simpa [grouped, groupedCountAt] using h
  · have hk : ("Jane" ++ "|||" ++ "news" : String) = "Jane|||news" := by decide
    simp [payoutTotal, payoutRate, hk, List.lookup]
    norm_num

/-- Helper: handleRateChange either leaves the rates map unchanged, or the
input parses to a non-negative number that is stored under the
author-type key. -/
theorem handleRateChange_cases (rates : List (String × Rat)) (author ty value : String) :
    handleRateChange rates author ty value = rates ∨
      ∃ q, jsNumber value = some q ∧ 0 ≤ q ∧
        handleRateChange rates author ty value = (author ++ "|||" ++ ty, q) :: rates := by
  unfold handleRateChange
  cases hj : jsNumber value with
  | none => exact Or.inl rfl
  | some q =>
    by_cases hq : 0 ≤ q
    · exact Or.inr ⟨q, rfl, hq, by simp [hq]⟩
    · simp [hq]

/-- Helper: a rates map whose entries are all non-negative keeps that
property across handleRateChange. -/
theorem handleRateChange_preserves_nonneg (rates : List (String × Rat))
    (author ty value : String)
    (hinv : ∀ k r, rates.lookup k = some r → 0 ≤ r) :
    ∀ k r, (handleRateChange rates author ty value).lookup k = some r → 0 ≤ r := by
  intro k r h
  rcases handleRateChange_cases rates author ty value with he | ⟨q, _, hq, he⟩
  · exact hinv k r (he ▸ h)
  · rw [he] at h
    cases hk : (k == author ++ "|||" ++ ty) with
    | true =>
      simp [List.lookup, hk] at h
      exact h ▸ hq
    | false =>
      simp [List.lookup, hk] at h
      exact hinv k r h

/-- Helper: Number on the input 3.5 yields seven halves. -/
theorem jsNumber_eval_threePointFive : jsNumber "3.5" = some ((7 : Rat) / 2) := by
  have hs : jsNumberShape "3.5" = .num false ['3'] ['5'] := by decide
  have h3 : digitsVal ['3'] = 3 := by decide
  have h5 : digitsVal ['5'] = 5 := by decide
  unfold jsNumber
  rw [hs]
  norm_num [shapeVal, h3, h5]

/-- Helper: Number on the input -2 yields minus two. -/
theorem jsNumber_eval_negTwo : jsNumber "-2" = some (-2 : Rat) := by
  have hs : jsNumberShape "-2" = .num true ['2'] [] := by decide
  have h2 : digitsVal ['2'] = 2 := by decide
  have h0 : digitsVal ([] : List Char) = 0 := by decide
  unfold jsNumber
  rw [hs]
  norm_num [shapeVal, h2, h0]

/-- Helper: Number on the input abc is NaN. -/
theorem jsNumber_eval_abc : jsNumber "abc" = none := by
  have hs : jsNumberShape "abc" = .nan := by decide
  unfold jsNumber
  rw [hs]
  rfl

/-- C10: every rate reachable in the payout-rates map is non-negative:
handleRateChange stores the parsed input only when it is a number at
least 0 and changes nothing otherwise, and a map of non-negative rates
makes every row total non-negative (the default rate 2 included); the
concrete conjuncts exercise an accepted input, a negative input and a
non-numeric input. -/
theorem payout_rates_nonnegative :
    (∀ (rates : List (String × Rat)) (author ty value : String),
      handleRateChange rates author ty value = rates ∨
        ∃ q, jsNumber value = some q ∧ 0 ≤ q ∧
          handleRateChange rates author ty value = (author ++ "|||" ++ ty, q) :: rates)
  ∧ (∀ (rates : List (String × Rat)) (author ty value : String),
      (∀ k r, rates.lookup k = some r → 0 ≤ r) →
      ∀ k r, (handleRateChange rates author ty value).lookup k = some r → 0 ≤ r)
  ∧ (∀ (rates : List (String × Rat)) (row : GroupRow),
      (∀ k r, rates.lookup k = some r → 0 ≤ r) → 0 ≤ payoutTotal rates row)
  ∧ handleRateChange [] "Jane" "news" "3.5" = [("Jane|||news", (7 : Rat) / 2)]
  ∧ handleRateChange [("Jane|||news", 3)] "Jane" "news" "-2" = [("Jane|||news", 3)]
  ∧ handleRateChange [("Jane|||news", 3)] "Jane" "news" "abc" = [("Jane|||news", 3)] := by
  refine ⟨handleRateChange_cases, handleRateChange_preserves_nonneg, ?_, ?_, ?_, ?_⟩
  · intro rates row hinv
    unfold payoutTotal
    apply mul_nonneg (Nat.cast_nonneg _)
    unfold payoutRate
    cases hl : rates.lookup (row.author ++ "|||" ++ row.type) with
    | none => norm_num
    | some r => exact hinv _ r hl
  · have hk : ("Jane" ++ "|||" ++ "news" : String) = "Jane|||news" := by decide
    unfold handleRateChange
    rw [jsNumber_eval_threePointFive]
    norm_num [hk]
  · unfold handleRateChange
    rw [jsNumber_eval_negTwo]
    norm_num
  · unfold handleRateChange
    rw [jsNumber_eval_abc]

/-- C10 witness: the invariant parts applied at concrete inputs: the
empty map is non-negative, stays so across an update with input 3.5, and
the resulting total of a row with count 2 is non-negative. -/
theorem payout_rates_nonnegative_witness :
    0 ≤ payoutTotal (handleRateChange [] "Jane" "news" "3.5")
      { author := "Jane", type := "news", count := 2 } :=
  payout_rates_nonnegative.2.2.1 (handleRateChange [] "Jane" "news" "3.5")
    { author := "Jane", type := "news", count := 2 }
    (payout_rates_nonnegative.2.1 [] "Jane" "news" "3.5" (by simp))

end FactFusion
